import Mathlib

/-!
Verification of the aircraft & multirotor performance calculator
(`drone_app.py`).  The script is a straight-line program: sidebar inputs,
an aerodynamics section (stall speed, power-required curve), a propulsion
section, a multirotor section (hover chain and payload sweep) and a PDF
report.  We embed it shallowly: every arithmetic formula becomes a function
on ℝ, the conditional bindings become `Option`, and Python runtime errors
(`NameError` on an unbound variable, `ZeroDivisionError` on a zero divisor)
become an `Except` layer that mirrors the script's top-to-bottom execution.
-/

namespace DroneCalc

open Real

open scoped Classical

noncomputable section

/-- Python runtime errors that the script can raise. -/
inductive PyErr where
  | nameError : PyErr
  | zeroDivisionError : PyErr
deriving DecidableEq

/-- All user inputs of `drone_app.py`: sidebar (lines 13-14), aerodynamics
tab (lines 26-28), propulsion tab (lines 54-57), multirotor tab
(lines 75-80) and the report button (line 119).  `prop_efficiency` is the
slider value already divided by 100, as bound on line 55. -/
structure Inputs where
  air_density : ℝ
  gravity : ℝ
  wing_area : ℝ
  weight : ℝ
  cl : ℝ
  thrust : ℝ
  prop_efficiency : ℝ
  fuel_energy_density : ℝ
  fuel_mass : ℝ
  num_rotors : ℕ
  rotor_diameter : ℝ
  battery_capacity : ℝ
  battery_voltage : ℝ
  payload : ℝ
  frame_weight : ℝ
  report_btn : Bool

/-- The stall-speed formula of line 32:
`np.sqrt((2 * weight * gravity) / (air_density * wing_area * cl))`. -/
def stallSpeedVal (air_density gravity wing_area weight cl : ℝ) : ℝ :=
  Real.sqrt ((2 * weight * gravity) / (air_density * wing_area * cl))

/-- Lines 31-35: the variable `stall_speed` is bound only under the guard
`wing_area > 0 and air_density > 0 and cl > 0`; otherwise a warning is
shown and the variable stays unbound (`none`). -/
def stallSpeedOpt (I : Inputs) : Option ℝ :=
  if I.wing_area > 0 ∧ I.air_density > 0 ∧ I.cl > 0 then
    some (stallSpeedVal I.air_density I.gravity I.wing_area I.weight I.cl)
  else none

/-- `np.linspace(20, 100, 30)` of line 39: the i-th sample point. -/
def curveSpeed (i : ℕ) : ℝ := 20 + 80 * i / 29

/-- Line 41: `drag = 0.5 * air_density * speeds**2 * wing_area * drag_coeff`
with `drag_coeff = 0.03` (line 40), at the i-th speed. -/
def curveDrag (air_density wing_area : ℝ) (i : ℕ) : ℝ :=
  0.5 * air_density * curveSpeed i ^ 2 * wing_area * 0.03

/-- Line 42: `power_required = drag * speeds / 1000` (kW), at the i-th speed. -/
def curvePower (air_density wing_area : ℝ) (i : ℕ) : ℝ :=
  curveDrag air_density wing_area i * curveSpeed i / 1000

/-- The 30-point (speed, power) curve of lines 39-43. -/
def powerCurve (air_density wing_area : ℝ) : List (ℝ × ℝ) :=
  (List.range 30).map (fun i => (curveSpeed i, curvePower air_density wing_area i))

/-- Propulsion tab, lines 60-66.  `stallOpt` is the state of the
`stall_speed` variable: reading it unbound on line 61 raises `NameError`.
Line 65 divides by `power_available * 1000 * 3600`, which raises
`ZeroDivisionError` when zero.  Returns `none` when the
`prop_efficiency > 0` guard fails (nothing is computed). -/
def propulsion (I : Inputs) (stallOpt : Option ℝ) : Except PyErr (Option (ℝ × ℝ)) :=
  if I.prop_efficiency > 0 then
    match stallOpt with
    | none => .error .nameError
    | some s =>
      let power_available := I.thrust * s / 1000 / I.prop_efficiency
      if power_available * 1000 * 3600 = 0 then .error .zeroDivisionError
      else
        let endurance := (I.fuel_energy_density * 1e6 * I.fuel_mass) /
          (power_available * 1000 * 3600)
        .ok (some (power_available, endurance))
  else .ok none

/-- The multirotor hover results of lines 83-90. -/
structure Hover where
  total_weight : ℝ
  thrust_per_motor : ℝ
  disk_area : ℝ
  induced_velocity : ℝ
  power_per_motor : ℝ
  total_power : ℝ
  total_energy : ℝ
  endurance : ℝ

/-- Multirotor tab, lines 83-90, with Python's `ZeroDivisionError` made
explicit at each division: line 84 divides by `num_rotors`, line 86 by
`2 * air_density * disk_area`, line 90 by `total_power * 1.0` (then by the
constant 60). -/
def hover (I : Inputs) : Except PyErr Hover :=
  if (I.num_rotors : ℝ) = 0 then .error .zeroDivisionError else
  let tw := (I.payload + I.frame_weight) * I.gravity
  let tpm := tw / I.num_rotors
  let A := Real.pi * (I.rotor_diameter / 2) ^ 2
  if 2 * I.air_density * A = 0 then .error .zeroDivisionError else
  let iv := Real.sqrt (tpm / (2 * I.air_density * A))
  let ppm := tpm * iv
  let tp := ppm * I.num_rotors
  let E := I.battery_capacity / 1000 * I.battery_voltage * 3600
  if tp * 1.0 = 0 then .error .zeroDivisionError else
  .ok ⟨tw, tpm, A, iv, ppm, tp, E, E / (tp * 1.0) / 60⟩

/-- `np.linspace(0.5, 5.0, 20)` of line 98: the i-th swept payload. -/
def sweepPayload (i : ℕ) : ℝ := 0.5 + 4.5 * i / 19

/-- One iteration of the payload-sweep loop, lines 102-109, at swept
payload `p`: recomputes the hover chain and appends
`(payload, endurance, hover_throttle)`; the throttle denominator uses the
literal constant 9.8, not the `gravity` input.  Divisions raise
`ZeroDivisionError` when the divisor is zero. -/
def sweepStep (I : Inputs) (p : ℝ) : Except PyErr (ℝ × ℝ × ℝ) :=
  if (I.num_rotors : ℝ) = 0 then .error .zeroDivisionError else
  let tw := (p + I.frame_weight) * I.gravity
  let tpm := tw / I.num_rotors
  let A := Real.pi * (I.rotor_diameter / 2) ^ 2
  if 2 * I.air_density * A = 0 then .error .zeroDivisionError else
  let iv := Real.sqrt (tpm / (2 * I.air_density * A))
  let ppm := tpm * iv
  let tp := ppm * I.num_rotors
  if tp = 0 then .error .zeroDivisionError else
  let te := I.battery_capacity / 1000 * I.battery_voltage * 3600 / tp / 60
  if 9.8 * (I.frame_weight / I.num_rotors + p / I.num_rotors) = 0 then
    .error .zeroDivisionError
  else
    .ok (p, te, tpm / (9.8 * (I.frame_weight / I.num_rotors + p / I.num_rotors)))

/-- The loop of lines 101-109 over a list of indices, aborting at the first
raised error. -/
def sweepAux (I : Inputs) : List ℕ → Except PyErr (List (ℝ × ℝ × ℝ))
  | [] => .ok []
  | i :: rest =>
    match sweepStep I (sweepPayload i) with
    | .error e => .error e
    | .ok t =>
      match sweepAux I rest with
      | .error e => .error e
      | .ok ts => .ok (t :: ts)

/-- The full 20-point payload sweep of lines 98-109. -/
def sweep (I : Inputs) : Except PyErr (List (ℝ × ℝ × ℝ)) :=
  sweepAux I (List.range 20)

/-- Report assembly, lines 128-144: the ordered (label, displayed number)
pairs.  Line 133 reads the `stall_speed` variable: if it is unbound the
f-string raises `NameError`.  Both endurance lines (137 and 142) read the
`endurance` variable, whose value at this point is the one passed in. -/
def report (I : Inputs) (stallOpt : Option ℝ) (endurance : ℝ) :
    Except PyErr (List (String × ℝ)) :=
  match stallOpt with
  | none => .error .nameError
  | some s => .ok
      [("Air Density", I.air_density),
       ("Gravity", I.gravity),
       ("Wing Area", I.wing_area),
       ("Weight", I.weight),
       ("Lift Coefficient", I.cl),
       ("Stall Speed", s),
       ("Thrust", I.thrust),
       ("Propeller Efficiency", I.prop_efficiency * 100),
       ("Fuel Mass", I.fuel_mass),
       ("Estimated Endurance", endurance),
       ("Number of Rotors", (I.num_rotors : ℝ)),
       ("Rotor Diameter", I.rotor_diameter),
       ("Battery Capacity", I.battery_capacity),
       ("Battery Voltage", I.battery_voltage),
       ("Multirotor Endurance", endurance)]

/-- Everything the script has on screen after one full run. -/
structure Result where
  stallOpt : Option ℝ
  curve : List (ℝ × ℝ)
  prop : Option (ℝ × ℝ)
  hov : Hover
  sweepRes : List (ℝ × ℝ × ℝ)
  rep : Option (List (String × ℝ))

/-- One top-to-bottom run of `drone_app.py`: aerodynamics (lines 31-43),
propulsion (lines 60-66), multirotor (lines 83-109), then the report
(lines 121-148) if the button was pressed.  The `endurance` variable bound
by the propulsion tab on line 65 is REBOUND by the multirotor tab on
line 90, so the report reads the multirotor value. -/
def run (I : Inputs) : Except PyErr Result :=
  match propulsion I (stallSpeedOpt I) with
  | .error e => .error e
  | .ok prop =>
    match hover I with
    | .error e => .error e
    | .ok hov =>
      match sweep I with
      | .error e => .error e
      | .ok swp =>
        if I.report_btn then
          match report I (stallSpeedOpt I) hov.endurance with
          | .error e => .error e
          | .ok rep =>
            .ok ⟨stallSpeedOpt I, powerCurve I.air_density I.wing_area, prop, hov, swp,
              some rep⟩
        else
          .ok ⟨stallSpeedOpt I, powerCurve I.air_density I.wing_area, prop, hov, swp, none⟩

/-- The UI default values of every input (lines 13-14, 26-28, 54-57,
75-80), with the report button not pressed. -/
def defaults : Inputs :=
  ⟨1.225, 9.81, 16, 1200, 1.2, 500, 0.8, 43, 100, 4, 0.3, 10000, 22.2, 1, 1.5, false⟩

/-- `defaults` but with `air_density := 0` (an invalid aerodynamic input). -/
def defaultsZeroDensity : Inputs :=
  ⟨0, 9.81, 16, 1200, 1.2, 500, 0.8, 43, 100, 4, 0.3, 10000, 22.2, 1, 1.5, false⟩

/-- `defaults` but with `wing_area := 0` and `prop_efficiency := 0`, and
the report button pressed: no stall speed and no propulsion endurance are
computed in this session, and export is requested. -/
def defaultsExportNoResults : Inputs :=
  ⟨1.225, 9.81, 0, 1200, 1.2, 500, 0, 43, 100, 4, 0.3, 10000, 22.2, 1, 1.5, true⟩

/-- `defaults` but with `rotor_diameter := 0` (zero disk area). -/
def defaultsZeroDiameter : Inputs :=
  ⟨1.225, 9.81, 16, 1200, 1.2, 500, 0.8, 43, 100, 4, 0, 10000, 22.2, 1, 1.5, false⟩

/-- `defaults` with the report button pressed. -/
def defaultsReport : Inputs :=
  ⟨1.225, 9.81, 16, 1200, 1.2, 500, 0.8, 43, 100, 4, 0.3, 10000, 22.2, 1, 1.5, true⟩

/-- Replace only the fuel energy density input. -/
def withFuelEnergyDensity (I : Inputs) (x : ℝ) : Inputs :=
  ⟨I.air_density, I.gravity, I.wing_area, I.weight, I.cl, I.thrust, I.prop_efficiency,
   x, I.fuel_mass, I.num_rotors, I.rotor_diameter, I.battery_capacity,
   I.battery_voltage, I.payload, I.frame_weight, I.report_btn⟩

/-- Pure value of line 83: `total_weight = (payload + frame_weight) * gravity`. -/
def hoverTw (I : Inputs) : ℝ := (I.payload + I.frame_weight) * I.gravity

/-- Pure value of line 84: `thrust_per_motor = total_weight / num_rotors`. -/
def hoverTpm (I : Inputs) : ℝ := hoverTw I / I.num_rotors

/-- Pure value of line 85: `disk_area = np.pi * (rotor_diameter/2)**2`. -/
def diskArea (I : Inputs) : ℝ := Real.pi * (I.rotor_diameter / 2) ^ 2

/-- Pure value of line 86: the induced velocity. -/
def hoverIv (I : Inputs) : ℝ :=
  Real.sqrt (hoverTpm I / (2 * I.air_density * diskArea I))

/-- Pure value of line 87: `power_per_motor = thrust_per_motor * induced_velocity`. -/
def hoverPpm (I : Inputs) : ℝ := hoverTpm I * hoverIv I

/-- Pure value of line 88: `total_power = power_per_motor * num_rotors`. -/
def hoverTp (I : Inputs) : ℝ := hoverPpm I * I.num_rotors

/-- Pure value of line 89: `total_energy = (battery_capacity/1000) * battery_voltage * 3600`. -/
def hoverEnergy (I : Inputs) : ℝ := I.battery_capacity / 1000 * I.battery_voltage * 3600

/-- Pure value of line 90: `endurance = total_energy / (total_power * 1.0) / 60`. -/
def hoverEndurance (I : Inputs) : ℝ := hoverEnergy I / (hoverTp I * 1.0) / 60

/-- Pure value of line 103 in the sweep, at swept payload `p`. -/
def sweepTpmP (I : Inputs) (p : ℝ) : ℝ := (p + I.frame_weight) * I.gravity / I.num_rotors

/-- Pure value of line 104 in the sweep. -/
def sweepIvP (I : Inputs) (p : ℝ) : ℝ :=
  Real.sqrt (sweepTpmP I p / (2 * I.air_density * diskArea I))

/-- Pure value of line 106 in the sweep: total power at swept payload `p`. -/
def sweepTpP (I : Inputs) (p : ℝ) : ℝ := sweepTpmP I p * sweepIvP I p * I.num_rotors

/-- Pure value of line 107 in the sweep: endurance at swept payload `p`. -/
def sweepEnduranceP (I : Inputs) (p : ℝ) : ℝ :=
  I.battery_capacity / 1000 * I.battery_voltage * 3600 / sweepTpP I p / 60

/-- Pure value of line 109 in the sweep: hover throttle at swept payload `p`,
with the literal constant 9.8 in the denominator. -/
def sweepThrottleP (I : Inputs) (p : ℝ) : ℝ :=
  sweepTpmP I p / (9.8 * (I.frame_weight / I.num_rotors + p / I.num_rotors))

/-- Pure value of line 61: `power_available = thrust * stall_speed / 1000 / prop_efficiency`. -/
def powerAvailableVal (I : Inputs) : ℝ :=
  I.thrust * stallSpeedVal I.air_density I.gravity I.wing_area I.weight I.cl /
    1000 / I.prop_efficiency

/-- Pure value of line 65: the propulsion endurance in hours. -/
def enduranceHrVal (I : Inputs) : ℝ :=
  (I.fuel_energy_density * 1e6 * I.fuel_mass) / (powerAvailableVal I * 1000 * 3600)

/-- The report that lines 128-144 emit on a fully successful run: both the
"Estimated Endurance" line (line 137) and the "Multirotor Endurance" line
(line 142) carry the value of the `endurance` variable, which line 90 of the
multirotor tab rebound to the multirotor endurance in minutes. -/
def reportList (I : Inputs) : List (String × ℝ) :=
  [("Air Density", I.air_density),
   ("Gravity", I.gravity),
   ("Wing Area", I.wing_area),
   ("Weight", I.weight),
   ("Lift Coefficient", I.cl),
   ("Stall Speed", stallSpeedVal I.air_density I.gravity I.wing_area I.weight I.cl),
   ("Thrust", I.thrust),
   ("Propeller Efficiency", I.prop_efficiency * 100),
   ("Fuel Mass", I.fuel_mass),
   ("Estimated Endurance", hoverEndurance I),
   ("Number of Rotors", (I.num_rotors : ℝ)),
   ("Rotor Diameter", I.rotor_diameter),
   ("Battery Capacity", I.battery_capacity),
   ("Battery Voltage", I.battery_voltage),
   ("Multirotor Endurance", hoverEndurance I)]

/-! ### Helper lemmas -/

/-- A square root of a quotient is monotone in the numerator (positive
denominator). -/
lemma sqrt_div_mono_num {N N' D : ℝ} (hD : 0 < D) (h : N ≤ N') :
    Real.sqrt (N / D) ≤ Real.sqrt (N' / D) :=
  Real.sqrt_le_sqrt ((div_le_div_iff_of_pos_right hD).mpr h)

/-- A square root of a quotient is antitone in the denominator (on positive
denominators; a nonpositive numerator makes both sides the clamped 0). -/
lemma sqrt_div_anti_den (N : ℝ) {D D' : ℝ} (hD : 0 < D) (hle : D ≤ D') :
    Real.sqrt (N / D') ≤ Real.sqrt (N / D) := by
  rcases lt_or_le N 0 with hN | hN
  · have h1 : N / D' ≤ 0 := div_nonpos_iff.mpr (Or.inr ⟨hN.le, (hD.trans_le hle).le⟩)
    calc Real.sqrt (N / D') = 0 := Real.sqrt_eq_zero'.mpr h1
    _ ≤ Real.sqrt (N / D) := Real.sqrt_nonneg _
  · rcases eq_or_lt_of_le hN with hN0 | hN0
    · simp [← hN0]
    · exact Real.sqrt_le_sqrt
        ((div_le_div_iff_of_pos_left hN0 (hD.trans_le hle) hD).mpr hle)

/-- At the default inputs the stall-speed guard holds and the bound value is
the formula at the default values. -/
lemma stallSpeedOpt_defaults :
    stallSpeedOpt defaults = some (stallSpeedVal 1.225 9.81 16 1200 1.2) := by
  have hg : defaults.wing_area > 0 ∧ defaults.air_density > 0 ∧ defaults.cl > 0 := by
    refine ⟨by norm_num [defaults], by norm_num [defaults], by norm_num [defaults]⟩
  rw [stallSpeedOpt, if_pos hg]
  rfl

/-- Lower bound on the default stall speed. -/
lemma stall_defaults_lb : 31.63 < stallSpeedVal 1.225 9.81 16 1200 1.2 := by
  rw [stallSpeedVal,
    show ((2:ℝ) * 1200 * 9.81) / (1.225 * 16 * 1.2) = 49050 / 49 by norm_num]
  exact (Real.lt_sqrt (by norm_num)).mpr (by norm_num)

/-- Upper bound on the default stall speed. -/
lemma stall_defaults_ub : stallSpeedVal 1.225 9.81 16 1200 1.2 < 31.64 := by
  rw [stallSpeedVal]
  exact (Real.sqrt_lt' (by norm_num)).mpr (by norm_num)

/-! ### Claim C1 -/

/-- Claim C1 (amended): whenever wing_area, air_density and the lift
coefficient are positive, the aerodynamics section binds
stall_speed = sqrt((2 * weight * gravity) / (air_density * wing_area * cl));
at the concrete scenario air_density=1.225, gravity=9.81, wing_area=16,
weight=1200, cl=1.2 the value is approximately 31.64 m/s (not 11.07). -/
theorem stall_speed_formula_scenario (I : Inputs)
    (hS : 0 < I.wing_area) (hρ : 0 < I.air_density) (hcl : 0 < I.cl) :
    stallSpeedOpt I =
      some (Real.sqrt ((2 * I.weight * I.gravity) /
        (I.air_density * I.wing_area * I.cl))) ∧
    ∃ v, stallSpeedOpt defaults = some v ∧ |v - 31.64| < 0.01 := by
  constructor
  · rw [stallSpeedOpt, if_pos ⟨hS, hρ, hcl⟩]; rfl
  · refine ⟨stallSpeedVal 1.225 9.81 16 1200 1.2, stallSpeedOpt_defaults, ?_⟩
    have h1 := stall_defaults_lb
    have h2 := stall_defaults_ub
    rw [abs_lt]
    constructor <;> nlinarith

/-- Claim C1 counterexample: at the spec's concrete scenario the computed
stall speed differs from 11.07 by more than 20 (it is about 31.64 m/s), so
the claimed "approximately 11.07 m/s" is false. -/
theorem stall_speed_scenario_not_eleven :
    ∃ v, stallSpeedOpt defaults = some v ∧ 20 < |v - 11.07| := by
  refine ⟨stallSpeedVal 1.225 9.81 16 1200 1.2, stallSpeedOpt_defaults, ?_⟩
  have h1 := stall_defaults_lb
  rw [abs_of_pos (by nlinarith)]
  nlinarith

/-- Witness for claim C1 at the default inputs. -/
theorem stall_speed_formula_scenario_witness :
    stallSpeedOpt defaults =
      some (Real.sqrt ((2 * defaults.weight * defaults.gravity) /
        (defaults.air_density * defaults.wing_area * defaults.cl))) ∧
    ∃ v, stallSpeedOpt defaults = some v ∧ |v - 31.64| < 0.01 :=
  stall_speed_formula_scenario defaults (by norm_num [defaults])
    (by norm_num [defaults]) (by norm_num [defaults])

/-! ### Claim C10 -/

/-- Claim C10: for wing_area, air_density, lift_coefficient strictly positive
and weight non-negative, the stall speed is non-negative, non-decreasing in
weight and in gravity, and non-increasing in wing_area, air_density and the
lift coefficient. -/
theorem stall_speed_monotonicity
    (ρ S cl W g ρ' S' cl' W' g' : ℝ)
    (hρ : 0 < ρ) (hS : 0 < S) (hcl : 0 < cl) (hW : 0 ≤ W)
    (hρ' : ρ ≤ ρ') (hS' : S ≤ S') (hcl' : cl ≤ cl')
    (hW' : W ≤ W') (hg' : g ≤ g') :
    0 ≤ stallSpeedVal ρ g S W cl ∧
    stallSpeedVal ρ g S W cl ≤ stallSpeedVal ρ g S W' cl ∧
    stallSpeedVal ρ g S W cl ≤ stallSpeedVal ρ g' S W cl ∧
    stallSpeedVal ρ g S' W cl ≤ stallSpeedVal ρ g S W cl ∧
    stallSpeedVal ρ' g S W cl ≤ stallSpeedVal ρ g S W cl ∧
    stallSpeedVal ρ g S W cl' ≤ stallSpeedVal ρ g S W cl := by
  have hD : 0 < ρ * S * cl := by positivity
  refine ⟨Real.sqrt_nonneg _, ?_, ?_, ?_, ?_, ?_⟩
  · rcases le_or_lt 0 g with hg | hg
    · exact sqrt_div_mono_num hD (by nlinarith)
    · have r1 : (2 * W * g) / (ρ * S * cl) ≤ 0 :=
        div_nonpos_iff.mpr (Or.inr ⟨by nlinarith, hD.le⟩)
      have r2 : (2 * W' * g) / (ρ * S * cl) ≤ 0 :=
        div_nonpos_iff.mpr (Or.inr ⟨by nlinarith, hD.le⟩)
      unfold stallSpeedVal
      rw [Real.sqrt_eq_zero'.mpr r1, Real.sqrt_eq_zero'.mpr r2]
  · exact sqrt_div_mono_num hD (by nlinarith)
  · exact sqrt_div_anti_den _ hD (by nlinarith)
  · exact sqrt_div_anti_den _ hD (by nlinarith)
  · exact sqrt_div_anti_den _ hD (by nlinarith)

/-- Witness for claim C10 at concrete values. -/
theorem stall_speed_monotonicity_witness :
    0 ≤ stallSpeedVal 1 1 1 0 1 ∧
    stallSpeedVal 1 1 1 0 1 ≤ stallSpeedVal 1 1 1 1 1 ∧
    stallSpeedVal 1 1 1 0 1 ≤ stallSpeedVal 1 2 1 0 1 ∧
    stallSpeedVal 1 1 2 0 1 ≤ stallSpeedVal 1 1 1 0 1 ∧
    stallSpeedVal 2 1 1 0 1 ≤ stallSpeedVal 1 1 1 0 1 ∧
    stallSpeedVal 1 1 1 0 2 ≤ stallSpeedVal 1 1 1 0 1 :=
  stall_speed_monotonicity 1 1 1 0 1 2 2 2 1 2 (by norm_num) (by norm_num)
    (by norm_num) (by norm_num) (by norm_num) (by norm_num) (by norm_num)
    (by norm_num) (by norm_num)

/-! ### Power-required curve (claim C7) -/

/-- The curve power is a positive multiple of the cube of the speed. -/
lemma curvePower_eq_cube (air_density wing_area : ℝ) (i : ℕ) :
    curvePower air_density wing_area i =
      0.5 * air_density * wing_area * 0.03 / 1000 * curveSpeed i ^ 3 := by
  unfold curvePower curveDrag
  ring

/-- Every sampled speed is positive. -/
lemma curveSpeed_pos (i : ℕ) : 0 < curveSpeed i := by
  unfold curveSpeed
  positivity

/-- The sampled speeds are strictly increasing. -/
lemma curveSpeed_strictMono {i j : ℕ} (h : i < j) : curveSpeed i < curveSpeed j := by
  unfold curveSpeed
  have hc : (i : ℝ) < j := by exact_mod_cast h
  linarith

/-- Claim C7 (amended): for every input the power-required curve has exactly
30 points, with speeds 20..100 m/s inclusive at equal spacing 80/29 and
power = 0.5 * air_density * speed^2 * wing_area * 0.03 * speed / 1000; when
additionally air_density > 0 and wing_area > 0, all power values are
non-negative and strictly increasing with speed. -/
theorem power_curve_props (air_density wing_area : ℝ) :
    (powerCurve air_density wing_area).length = 30 ∧
    curveSpeed 0 = 20 ∧
    curveSpeed 29 = 100 ∧
    (∀ i, i < 29 → curveSpeed (i + 1) - curveSpeed i = 80 / 29) ∧
    (∀ i, i < 30 → (powerCurve air_density wing_area).get? i =
      some (curveSpeed i,
        0.5 * air_density * curveSpeed i ^ 2 * wing_area * 0.03 * curveSpeed i / 1000)) ∧
    (0 < air_density → 0 < wing_area →
      (∀ i, i < 30 → 0 ≤ curvePower air_density wing_area i) ∧
      (∀ i j, i < 30 → j < 30 → i < j →
        curvePower air_density wing_area i < curvePower air_density wing_area j)) := by
  refine ⟨by simp [powerCurve], by norm_num [curveSpeed], by norm_num [curveSpeed],
    ?_, ?_, ?_⟩
  · intro i hi
    unfold curveSpeed
    push_cast
    ring
  · intro i hi
    rw [powerCurve, List.get?_map, List.get?_range hi]
    rfl
  · intro hρ hS
    constructor
    · intro i hi
      unfold curvePower curveDrag
      have hv := curveSpeed_pos i
      positivity
    · intro i j hi hj hij
      rw [curvePower_eq_cube, curvePower_eq_cube]
      have hv := curveSpeed_pos i
      have hlt := curveSpeed_strictMono hij
      have h3 : curveSpeed i ^ 3 < curveSpeed j ^ 3 :=
        pow_lt_pow_left hlt hv.le (by norm_num)
      have hc : (0:ℝ) < 0.5 * air_density * wing_area * 0.03 / 1000 := by positivity
      exact mul_lt_mul_of_pos_left h3 hc

/-- Claim C7 counterexample: at wing_area = 0 (air density 1.225, a reachable
input: the stall-speed guard itself contemplates it) every power value is 0,
so the power values are not strictly increasing with speed. -/
theorem power_curve_not_strictly_increasing_at_zero_area :
    ¬ (∀ i j, i < 30 → j < 30 → i < j →
        curvePower 1.225 0 i < curvePower 1.225 0 j) := by
  intro h
  have h01 := h 0 1 (by norm_num) (by norm_num) (by norm_num)
  have e0 : curvePower 1.225 0 0 = 0 := by simp [curvePower, curveDrag]
  have e1 : curvePower 1.225 0 1 = 0 := by simp [curvePower, curveDrag]
  rw [e0, e1] at h01
  exact lt_irrefl 0 h01

/-- Witness for claim C7 at the default air density and wing area. -/
theorem power_curve_props_witness :
    (powerCurve 1.225 16).length = 30 ∧
    ((∀ i, i < 30 → 0 ≤ curvePower 1.225 16 i) ∧
     (∀ i j, i < 30 → j < 30 → i < j →
       curvePower 1.225 16 i < curvePower 1.225 16 j)) :=
  ⟨(power_curve_props 1.225 16).1,
   (power_curve_props 1.225 16).2.2.2.2.2 (by norm_num) (by norm_num)⟩

/-! ### Multirotor hover chain (claims C3, C4) -/

/-- Positive rotor diameter gives positive disk area. -/
lemma diskArea_pos (I : Inputs) (hd : 0 < I.rotor_diameter) : 0 < diskArea I :=
  mul_pos Real.pi_pos (pow_pos (div_pos hd two_pos) 2)

/-- Positivity of the thrust per motor. -/
lemma hoverTpm_pos (I : Inputs) (hn : 0 < I.num_rotors) (hg : 0 < I.gravity)
    (hp : 0 < I.payload) (hfw : 0 < I.frame_weight) : 0 < hoverTpm I := by
  have hnR : (0:ℝ) < I.num_rotors := by exact_mod_cast hn
  exact div_pos (mul_pos (by linarith) hg) hnR

/-- Positivity of the induced velocity. -/
lemma hoverIv_pos (I : Inputs) (hn : 0 < I.num_rotors) (hρ : 0 < I.air_density)
    (hd : 0 < I.rotor_diameter) (hg : 0 < I.gravity) (hp : 0 < I.payload)
    (hfw : 0 < I.frame_weight) : 0 < hoverIv I :=
  Real.sqrt_pos.mpr (div_pos (hoverTpm_pos I hn hg hp hfw)
    (mul_pos (mul_pos two_pos hρ) (diskArea_pos I hd)))

/-- Positivity of the total hover power. -/
lemma hoverTp_pos (I : Inputs) (hn : 0 < I.num_rotors) (hρ : 0 < I.air_density)
    (hd : 0 < I.rotor_diameter) (hg : 0 < I.gravity) (hp : 0 < I.payload)
    (hfw : 0 < I.frame_weight) : 0 < hoverTp I := by
  have hnR : (0:ℝ) < I.num_rotors := by exact_mod_cast hn
  exact mul_pos (mul_pos (hoverTpm_pos I hn hg hp hfw)
    (hoverIv_pos I hn hρ hd hg hp hfw)) hnR

/-- For positive inputs the multirotor section raises nothing and computes
exactly the chain of lines 83-90. -/
lemma hover_eq (I : Inputs) (hn : 0 < I.num_rotors) (hρ : 0 < I.air_density)
    (hd : 0 < I.rotor_diameter) (hg : 0 < I.gravity) (hp : 0 < I.payload)
    (hfw : 0 < I.frame_weight) :
    hover I = .ok ⟨hoverTw I, hoverTpm I, diskArea I, hoverIv I, hoverPpm I,
      hoverTp I, hoverEnergy I, hoverEndurance I⟩ := by
  have hnR : (0:ℝ) < I.num_rotors := by exact_mod_cast hn
  have hden : (0:ℝ) < 2 * I.air_density * (Real.pi * (I.rotor_diameter / 2) ^ 2) :=
    mul_pos (mul_pos two_pos hρ) (diskArea_pos I hd)
  have htp := hoverTp_pos I hn hρ hd hg hp hfw
  have htp1 : (0:ℝ) < hoverTp I * 1.0 := mul_pos htp (by norm_num)
  simp only [hover]
  split_ifs with h1 h2 h3
  · exact absurd h1 hnR.ne'
  · exact absurd h2 hden.ne'
  · exact absurd h3 htp1.ne'
  · rfl

/-- Thrust per motor at the default inputs. -/
lemma hoverTpm_defaults : hoverTpm defaults = 6.13125 := by
  norm_num [hoverTpm, hoverTw, defaults]

/-- Disk area at the default inputs. -/
lemma diskArea_defaults : diskArea defaults = Real.pi * 0.0225 := by
  rw [diskArea]
  norm_num [defaults]

/-- The induced-velocity radicand at the default inputs. -/
lemma hover_radicand_defaults :
    hoverTpm defaults / (2 * defaults.air_density * diskArea defaults) =
      6.13125 / (2.45 * (Real.pi * 0.0225)) := by
  rw [hoverTpm_defaults, diskArea_defaults]
  norm_num [defaults]

/-- Lower bound on the default induced velocity. -/
lemma hoverIv_defaults_lb : 5.9501 < hoverIv defaults := by
  rw [hoverIv, hover_radicand_defaults]
  refine (Real.lt_sqrt (by norm_num)).mpr ?_
  rw [lt_div_iff (by positivity)]
  nlinarith [Real.pi_lt_d6]

/-- Upper bound on the default induced velocity. -/
lemma hoverIv_defaults_ub : hoverIv defaults < 5.9502 := by
  rw [hoverIv, hover_radicand_defaults]
  refine (Real.sqrt_lt' (by norm_num)).mpr ?_
  rw [div_lt_iff (by positivity)]
  nlinarith [Real.pi_gt_d6]

/-- The default total hover power in terms of the induced velocity. -/
lemma hoverTp_defaults_eq : hoverTp defaults = 24.525 * hoverIv defaults := by
  have hc : ((defaults.num_rotors : ℕ) : ℝ) = 4 := by norm_num [defaults]
  rw [hoverTp, hoverPpm, hoverTpm_defaults, hc]
  ring

/-- Claim C3 (amended): for every multirotor input with positive parameters
the hover results are computed by the chain of lines 83-90 (total weight,
thrust per motor, disk area, momentum-theory induced velocity, power per
motor, total power, battery energy, endurance in minutes); at the concrete
scenario (defaults) the thrust per motor is ≈ 6.13 N and the total power is
≈ 145.9 W (not 205.8 W). -/
theorem hover_chain_formulas (I : Inputs) (hn : 0 < I.num_rotors)
    (hρ : 0 < I.air_density) (hd : 0 < I.rotor_diameter) (hg : 0 < I.gravity)
    (hp : 0 < I.payload) (hfw : 0 < I.frame_weight) :
    hover I = .ok ⟨hoverTw I, hoverTpm I, diskArea I, hoverIv I, hoverPpm I,
      hoverTp I, hoverEnergy I, hoverEndurance I⟩ ∧
    ∃ h, hover defaults = .ok h ∧ |h.thrust_per_motor - 6.13| < 0.01 ∧
      |h.total_power - 145.9| < 0.05 := by
  refine ⟨hover_eq I hn hρ hd hg hp hfw,
    ⟨_, hover_eq defaults (by norm_num [defaults]) (by norm_num [defaults])
      (by norm_num [defaults]) (by norm_num [defaults]) (by norm_num [defaults])
      (by norm_num [defaults]), ?_, ?_⟩⟩
  · show |hoverTpm defaults - 6.13| < 0.01
    rw [hoverTpm_defaults, abs_lt]
    constructor <;> norm_num
  · show |hoverTp defaults - 145.9| < 0.05
    rw [hoverTp_defaults_eq, abs_lt]
    have h1 := hoverIv_defaults_lb
    have h2 := hoverIv_defaults_ub
    constructor <;> nlinarith

/-- Claim C3 counterexample: at the spec's concrete multirotor scenario the
computed total hover power differs from the claimed 205.8 W by more than
50 W (it is about 145.9 W). -/
theorem hover_scenario_power_not_206 :
    ∃ h, hover defaults = .ok h ∧ 50 < |h.total_power - 205.8| := by
  refine ⟨_, hover_eq defaults (by norm_num [defaults]) (by norm_num [defaults])
    (by norm_num [defaults]) (by norm_num [defaults]) (by norm_num [defaults])
    (by norm_num [defaults]), ?_⟩
  show 50 < |hoverTp defaults - 205.8|
  rw [hoverTp_defaults_eq]
  have h1 := hoverIv_defaults_lb
  have h2 := hoverIv_defaults_ub
  rw [abs_sub_comm, abs_of_pos (by nlinarith)]
  nlinarith

/-- Witness for claim C3 at the default inputs. -/
theorem hover_chain_formulas_witness :
    hover defaults = .ok ⟨hoverTw defaults, hoverTpm defaults, diskArea defaults,
      hoverIv defaults, hoverPpm defaults, hoverTp defaults, hoverEnergy defaults,
      hoverEndurance defaults⟩ ∧
    ∃ h, hover defaults = .ok h ∧ |h.thrust_per_motor - 6.13| < 0.01 ∧
      |h.total_power - 145.9| < 0.05 :=
  hover_chain_formulas defaults (by norm_num [defaults]) (by norm_num [defaults])
    (by norm_num [defaults]) (by norm_num [defaults]) (by norm_num [defaults])
    (by norm_num [defaults])

/-- Claim C4: with rotor_diameter = 0 (all other inputs at their defaults)
the multirotor section does NOT guard the zero disk area: evaluating the
induced velocity divides by `2 * air_density * disk_area = 0` and raises
`ZeroDivisionError` instead of showing a validation message. -/
theorem multirotor_zero_diameter_division_error :
    hover defaultsZeroDiameter = .error .zeroDivisionError := by
  simp only [hover]
  split_ifs with h1 h2 h3
  any_goals rfl
  all_goals exact absurd (show (2:ℝ) * defaultsZeroDiameter.air_density *
    (Real.pi * (defaultsZeroDiameter.rotor_diameter / 2) ^ 2) = 0 by
      norm_num [defaultsZeroDiameter]) h2

/-! ### Payload sweep (claims C8, C9) -/

/-- Every swept payload is positive. -/
lemma sweepPayload_pos (i : ℕ) : 0 < sweepPayload i := by
  unfold sweepPayload
  positivity

/-- The swept payloads are monotone in the index. -/
lemma sweepPayload_mono {i j : ℕ} (h : i ≤ j) : sweepPayload i ≤ sweepPayload j := by
  unfold sweepPayload
  have hc : (i : ℝ) ≤ j := by exact_mod_cast h
  linarith

/-- Positivity of the swept thrust per motor. -/
lemma sweepTpmP_pos (I : Inputs) (hn : 0 < I.num_rotors) (hg : 0 < I.gravity)
    (hfw : 0 < I.frame_weight) {p : ℝ} (hp : 0 < p) : 0 < sweepTpmP I p := by
  have hnR : (0:ℝ) < I.num_rotors := by exact_mod_cast hn
  exact div_pos (mul_pos (by linarith) hg) hnR

/-- Positivity of the swept induced velocity. -/
lemma sweepIvP_pos (I : Inputs) (hn : 0 < I.num_rotors) (hρ : 0 < I.air_density)
    (hd : 0 < I.rotor_diameter) (hg : 0 < I.gravity) (hfw : 0 < I.frame_weight)
    {p : ℝ} (hp : 0 < p) : 0 < sweepIvP I p :=
  Real.sqrt_pos.mpr (div_pos (sweepTpmP_pos I hn hg hfw hp)
    (mul_pos (mul_pos two_pos hρ) (diskArea_pos I hd)))

/-- Positivity of the swept total power. -/
lemma sweepTpP_pos (I : Inputs) (hn : 0 < I.num_rotors) (hρ : 0 < I.air_density)
    (hd : 0 < I.rotor_diameter) (hg : 0 < I.gravity) (hfw : 0 < I.frame_weight)
    {p : ℝ} (hp : 0 < p) : 0 < sweepTpP I p := by
  have hnR : (0:ℝ) < I.num_rotors := by exact_mod_cast hn
  exact mul_pos (mul_pos (sweepTpmP_pos I hn hg hfw hp)
    (sweepIvP_pos I hn hρ hd hg hfw hp)) hnR

/-- For positive inputs one sweep iteration raises nothing and appends the
triple of the pure per-payload formulas. -/
lemma sweepStep_eq (I : Inputs) (hn : 0 < I.num_rotors) (hρ : 0 < I.air_density)
    (hd : 0 < I.rotor_diameter) (hg : 0 < I.gravity) (hfw : 0 < I.frame_weight)
    {p : ℝ} (hp : 0 < p) :
    sweepStep I p = .ok (p, sweepEnduranceP I p, sweepThrottleP I p) := by
  have hnR : (0:ℝ) < I.num_rotors := by exact_mod_cast hn
  have hden : (0:ℝ) < 2 * I.air_density * (Real.pi * (I.rotor_diameter / 2) ^ 2) :=
    mul_pos (mul_pos two_pos hρ) (diskArea_pos I hd)
  have htp := sweepTpP_pos I hn hρ hd hg hfw hp
  have hth : (0:ℝ) < 9.8 * (I.frame_weight / I.num_rotors + p / I.num_rotors) := by
    have h1 : (0:ℝ) < I.frame_weight / I.num_rotors := div_pos hfw hnR
    have h2 : (0:ℝ) < p / I.num_rotors := div_pos hp hnR
    nlinarith
  simp only [sweepStep]
  split_ifs with h1 h2 h3 h4
  · exact absurd h1 hnR.ne'
  · exact absurd h2 hden.ne'
  · exact absurd h3 htp.ne'
  · exact absurd h4 hth.ne'
  · rfl

/-- The sweep loop over a list of indices whose every step succeeds. -/
lemma sweepAux_ok (I : Inputs) (f : ℕ → ℝ × ℝ × ℝ) (l : List ℕ)
    (h : ∀ i ∈ l, sweepStep I (sweepPayload i) = .ok (f i)) :
    sweepAux I l = .ok (l.map f) := by
  induction l with
  | nil => rfl
  | cons a t ih =>
    have ha := h a (by simp)
    have ht := ih (fun i hi => h i (by simp [hi]))
    simp only [sweepAux, ha, ht, List.map_cons]

/-- For positive inputs the whole 20-point sweep succeeds and lists the pure
per-payload values. -/
lemma sweep_eq (I : Inputs) (hn : 0 < I.num_rotors) (hρ : 0 < I.air_density)
    (hd : 0 < I.rotor_diameter) (hg : 0 < I.gravity) (hfw : 0 < I.frame_weight) :
    sweep I = .ok ((List.range 20).map fun i =>
      (sweepPayload i, sweepEnduranceP I (sweepPayload i),
        sweepThrottleP I (sweepPayload i))) := by
  apply sweepAux_ok
  intro i hi
  exact sweepStep_eq I hn hρ hd hg hfw (sweepPayload_pos i)

/-- The swept endurance is antitone in the swept payload. -/
lemma sweepEnduranceP_anti (I : Inputs) (hn : 0 < I.num_rotors)
    (hρ : 0 < I.air_density) (hd : 0 < I.rotor_diameter) (hg : 0 < I.gravity)
    (hfw : 0 < I.frame_weight) (hbc : 0 < I.battery_capacity)
    (hbv : 0 < I.battery_voltage) {p q : ℝ} (hp : 0 < p) (hpq : p ≤ q) :
    sweepEnduranceP I q ≤ sweepEnduranceP I p := by
  have hq : 0 < q := lt_of_lt_of_le hp hpq
  have hnR : (0:ℝ) < I.num_rotors := by exact_mod_cast hn
  have hden : (0:ℝ) < 2 * I.air_density * diskArea I :=
    mul_pos (mul_pos two_pos hρ) (diskArea_pos I hd)
  have htpp := sweepTpP_pos I hn hρ hd hg hfw hp
  have htpq := sweepTpP_pos I hn hρ hd hg hfw hq
  have h1 : sweepTpmP I p ≤ sweepTpmP I q := by
    unfold sweepTpmP
    exact (div_le_div_iff_of_pos_right hnR).mpr (by nlinarith)
  have h2 : sweepIvP I p ≤ sweepIvP I q := by
    unfold sweepIvP
    exact sqrt_div_mono_num hden h1
  have hmono : sweepTpP I p ≤ sweepTpP I q := by
    unfold sweepTpP
    refine mul_le_mul_of_nonneg_right ?_ hnR.le
    exact mul_le_mul h1 h2 (sweepIvP_pos I hn hρ hd hg hfw hp).le
      (sweepTpmP_pos I hn hg hfw hq).le
  have hE : (0:ℝ) < I.battery_capacity / 1000 * I.battery_voltage * 3600 := by
    positivity
  unfold sweepEnduranceP
  refine (div_le_div_iff_of_pos_right (by norm_num : (0:ℝ) < 60)).mpr ?_
  exact (div_le_div_iff_of_pos_left hE htpq htpp).mpr hmono

/-- Claim C8: for fixed positive parameters, the payload sweep succeeds with
exactly 20 points over payloads 0.5..5.0 kg inclusive at equal spacing
4.5/19, and the swept endurance is monotonically non-increasing in the
swept payload. -/
theorem payload_sweep_endurance (I : Inputs) (hn : 0 < I.num_rotors)
    (hρ : 0 < I.air_density) (hd : 0 < I.rotor_diameter) (hg : 0 < I.gravity)
    (hfw : 0 < I.frame_weight) (hbc : 0 < I.battery_capacity)
    (hbv : 0 < I.battery_voltage) :
    ∃ l, sweep I = .ok l ∧ l.length = 20 ∧
      (∀ i, i < 20 → l.get? i = some (sweepPayload i,
        sweepEnduranceP I (sweepPayload i), sweepThrottleP I (sweepPayload i))) ∧
      sweepPayload 0 = 0.5 ∧ sweepPayload 19 = 5 ∧
      (∀ i, i < 19 → sweepPayload (i + 1) - sweepPayload i = 4.5 / 19) ∧
      (∀ i j, i ≤ j → j < 20 →
        sweepEnduranceP I (sweepPayload j) ≤ sweepEnduranceP I (sweepPayload i)) := by
  refine ⟨_, sweep_eq I hn hρ hd hg hfw, by simp, ?_, by norm_num [sweepPayload],
    by norm_num [sweepPayload], ?_, ?_⟩
  · intro i hi
    rw [List.get?_map, List.get?_range hi]
    rfl
  · intro i hi
    unfold sweepPayload
    push_cast
    ring
  · intro i j hij hj
    exact sweepEnduranceP_anti I hn hρ hd hg hfw hbc hbv (sweepPayload_pos i)
      (sweepPayload_mono hij)

/-- Witness for claim C8 at the default inputs. -/
theorem payload_sweep_endurance_witness :
    ∃ l, sweep defaults = .ok l ∧ l.length = 20 ∧
      (∀ i, i < 20 → l.get? i = some (sweepPayload i,
        sweepEnduranceP defaults (sweepPayload i),
        sweepThrottleP defaults (sweepPayload i))) ∧
      sweepPayload 0 = 0.5 ∧ sweepPayload 19 = 5 ∧
      (∀ i, i < 19 → sweepPayload (i + 1) - sweepPayload i = 4.5 / 19) ∧
      (∀ i j, i ≤ j → j < 20 → sweepEnduranceP defaults (sweepPayload j) ≤
        sweepEnduranceP defaults (sweepPayload i)) :=
  payload_sweep_endurance defaults (by norm_num [defaults]) (by norm_num [defaults])
    (by norm_num [defaults]) (by norm_num [defaults]) (by norm_num [defaults])
    (by norm_num [defaults]) (by norm_num [defaults])

/-- Claim C9: at every swept payload, the hover throttle is the swept thrust
per motor divided by `9.8 * (frame_weight/num_rotors + payload/num_rotors)`
with the literal constant 9.8, while the thrust per motor itself uses the
user-supplied gravity; consequently the throttle equals gravity / 9.8. -/
theorem sweep_hover_throttle_constant (I : Inputs) (hn : 0 < I.num_rotors)
    (hfw : 0 < I.frame_weight) :
    ∀ i, i < 20 →
      sweepThrottleP I (sweepPayload i) = sweepTpmP I (sweepPayload i) /
        (9.8 * (I.frame_weight / I.num_rotors + sweepPayload i / I.num_rotors)) ∧
      sweepTpmP I (sweepPayload i) =
        (sweepPayload i + I.frame_weight) * I.gravity / I.num_rotors ∧
      sweepThrottleP I (sweepPayload i) = I.gravity / 9.8 := by
  intro i hi
  refine ⟨rfl, rfl, ?_⟩
  have hnR : (0:ℝ) < I.num_rotors := by exact_mod_cast hn
  have hp := sweepPayload_pos i
  have h1 : (I.num_rotors : ℝ) ≠ 0 := hnR.ne'
  have h2 : sweepPayload i + I.frame_weight ≠ 0 := by
    have : (0:ℝ) < sweepPayload i + I.frame_weight := by linarith
    exact this.ne'
  have h3 : I.frame_weight + sweepPayload i ≠ 0 := by
    have : (0:ℝ) < I.frame_weight + sweepPayload i := by linarith
    exact this.ne'
  rw [sweepThrottleP, sweepTpmP]
  field_simp
  ring

/-- Witness for claim C9 at the default inputs and the first sweep index. -/
theorem sweep_hover_throttle_constant_witness :
    sweepThrottleP defaults (sweepPayload 0) = sweepTpmP defaults (sweepPayload 0) /
      (9.8 * (defaults.frame_weight / defaults.num_rotors +
        sweepPayload 0 / defaults.num_rotors)) ∧
    sweepTpmP defaults (sweepPayload 0) =
      (sweepPayload 0 + defaults.frame_weight) * defaults.gravity /
        defaults.num_rotors ∧
    sweepThrottleP defaults (sweepPayload 0) = defaults.gravity / 9.8 :=
  sweep_hover_throttle_constant defaults (by norm_num [defaults])
    (by norm_num [defaults]) 0 (by norm_num)

/-! ### Whole-script runs (claims C2, C5, C6) -/

/-- Claim C2: with air_density = 0 (all other inputs at their defaults, in
particular prop_efficiency = 0.8 > 0) the stall speed is correctly reported
unavailable, but the downstream propulsion section then reads the unbound
`stall_speed` variable on line 61 and the script raises `NameError` instead
of reporting power_available and endurance as unavailable. -/
theorem invalid_density_crashes_propulsion :
    stallSpeedOpt defaultsZeroDensity = none ∧
    run defaultsZeroDensity = .error .nameError := by
  have hstall : stallSpeedOpt defaultsZeroDensity = none := by
    rw [stallSpeedOpt, if_neg]
    norm_num [defaultsZeroDensity]
  have hprop : propulsion defaultsZeroDensity (stallSpeedOpt defaultsZeroDensity) =
      .error .nameError := by
    rw [hstall, propulsion,
      if_pos (by norm_num [defaultsZeroDensity] :
        defaultsZeroDensity.prop_efficiency > 0)]
  refine ⟨hstall, ?_⟩
  simp only [run, hprop]

/-- Claim C5: with wing_area = 0 and prop_efficiency = 0, neither the stall
speed nor the propulsion endurance is computed in the session; pressing the
export button then makes line 133 format the unbound `stall_speed` variable,
raising `NameError` instead of failing with an explicit "no results"
condition. -/
theorem export_without_results_crashes :
    stallSpeedOpt defaultsExportNoResults = none ∧
    run defaultsExportNoResults = .error .nameError := by
  have hstall : stallSpeedOpt defaultsExportNoResults = none := by
    rw [stallSpeedOpt, if_neg]
    norm_num [defaultsExportNoResults]
  have hprop : propulsion defaultsExportNoResults (none : Option ℝ) = .ok none := by
    rw [propulsion, if_neg]
    norm_num [defaultsExportNoResults]
  have hbtn : defaultsExportNoResults.report_btn = true := rfl
  have hrep : report defaultsExportNoResults (none : Option ℝ)
      (hoverEndurance defaultsExportNoResults) = .error .nameError := rfl
  have hhov := hover_eq defaultsExportNoResults (by norm_num [defaultsExportNoResults])
    (by norm_num [defaultsExportNoResults]) (by norm_num [defaultsExportNoResults])
    (by norm_num [defaultsExportNoResults]) (by norm_num [defaultsExportNoResults])
    (by norm_num [defaultsExportNoResults])
  have hswp := sweep_eq defaultsExportNoResults (by norm_num [defaultsExportNoResults])
    (by norm_num [defaultsExportNoResults]) (by norm_num [defaultsExportNoResults])
    (by norm_num [defaultsExportNoResults]) (by norm_num [defaultsExportNoResults])
  refine ⟨hstall, ?_⟩
  simp only [run, hstall, hprop, hhov, hswp, hbtn, if_true, hrep]

/-- One fully successful run of the script with the report button pressed:
stall speed bound, propulsion computed, hover chain computed, sweep
computed, and the report emitted. -/
lemma run_eq (I : Inputs) (hbtn : I.report_btn = true) (hS : 0 < I.wing_area)
    (hρ : 0 < I.air_density) (hcl : 0 < I.cl) (hW : 0 < I.weight)
    (hg : 0 < I.gravity) (hthr : 0 < I.thrust) (heff : 0 < I.prop_efficiency)
    (hn : 0 < I.num_rotors) (hd : 0 < I.rotor_diameter) (hp : 0 < I.payload)
    (hfw : 0 < I.frame_weight) :
    run I = .ok ⟨some (stallSpeedVal I.air_density I.gravity I.wing_area I.weight I.cl),
      powerCurve I.air_density I.wing_area,
      some (powerAvailableVal I, enduranceHrVal I),
      ⟨hoverTw I, hoverTpm I, diskArea I, hoverIv I, hoverPpm I, hoverTp I,
        hoverEnergy I, hoverEndurance I⟩,
      (List.range 20).map (fun i => (sweepPayload i, sweepEnduranceP I (sweepPayload i),
        sweepThrottleP I (sweepPayload i))),
      some (reportList I)⟩ := by
  have hstall : stallSpeedOpt I =
      some (stallSpeedVal I.air_density I.gravity I.wing_area I.weight I.cl) := by
    rw [stallSpeedOpt, if_pos ⟨hS, hρ, hcl⟩]
  have hsv : 0 < stallSpeedVal I.air_density I.gravity I.wing_area I.weight I.cl := by
    rw [stallSpeedVal]
    exact Real.sqrt_pos.mpr (div_pos (by positivity) (by positivity))
  have hpa : 0 < powerAvailableVal I := by
    rw [powerAvailableVal]
    exact div_pos (div_pos (mul_pos hthr hsv) (by norm_num)) heff
  have hpane : powerAvailableVal I * 1000 * 3600 ≠ 0 :=
    (mul_pos (mul_pos hpa (by norm_num)) (by norm_num)).ne'
  have hprop : propulsion I
      (some (stallSpeedVal I.air_density I.gravity I.wing_area I.weight I.cl)) =
      .ok (some (powerAvailableVal I, enduranceHrVal I)) := by
    rw [propulsion, if_pos heff]
    show (if powerAvailableVal I * 1000 * 3600 = 0 then
        (Except.error PyErr.zeroDivisionError : Except PyErr (Option (ℝ × ℝ)))
      else .ok (some (powerAvailableVal I, enduranceHrVal I))) = _
    rw [if_neg hpane]
  have hhov := hover_eq I hn hρ hd hg hp hfw
  have hswp := sweep_eq I hn hρ hd hg hfw
  have hrep : report I
      (some (stallSpeedVal I.air_density I.gravity I.wing_area I.weight I.cl))
      (hoverEndurance I) = .ok (reportList I) := rfl
  simp only [run, hprop, hhov, hswp, hstall, hbtn, if_true, hrep]

/-- Claim C6: on every exported report, the "Estimated Endurance" line and
the "Multirotor Endurance" line both carry the multirotor endurance-minutes
value, because line 90 rebinds the `endurance` variable that line 65 wrote;
the report does not depend on the fuel energy density, so the propulsion
endurance-hours value never reaches it. -/
theorem report_endurance_lines_same_value (I : Inputs) (hbtn : I.report_btn = true)
    (hS : 0 < I.wing_area) (hρ : 0 < I.air_density) (hcl : 0 < I.cl)
    (hW : 0 < I.weight) (hg : 0 < I.gravity) (hthr : 0 < I.thrust)
    (heff : 0 < I.prop_efficiency) (hn : 0 < I.num_rotors)
    (hd : 0 < I.rotor_diameter) (hp : 0 < I.payload) (hfw : 0 < I.frame_weight) :
    ∃ r, run I = .ok r ∧ r.rep = some (reportList I) ∧
      (reportList I).get? 9 = some ("Estimated Endurance", hoverEndurance I) ∧
      (reportList I).get? 14 = some ("Multirotor Endurance", hoverEndurance I) ∧
      (∀ x, reportList (withFuelEnergyDensity I x) = reportList I) ∧
      (∀ x, ∃ r2, run (withFuelEnergyDensity I x) = .ok r2 ∧
        r2.rep = some (reportList I)) := by
  refine ⟨_, run_eq I hbtn hS hρ hcl hW hg hthr heff hn hd hp hfw, rfl, rfl, rfl,
    fun x => rfl, fun x => ⟨_, run_eq (withFuelEnergyDensity I x) hbtn hS hρ hcl hW
      hg hthr heff hn hd hp hfw, rfl⟩⟩

/-- Witness for claim C6 at the default inputs with the report button
pressed. -/
theorem report_endurance_lines_same_value_witness :
    ∃ r, run defaultsReport = .ok r ∧ r.rep = some (reportList defaultsReport) ∧
      (reportList defaultsReport).get? 9 =
        some ("Estimated Endurance", hoverEndurance defaultsReport) ∧
      (reportList defaultsReport).get? 14 =
        some ("Multirotor Endurance", hoverEndurance defaultsReport) ∧
      (∀ x, reportList (withFuelEnergyDensity defaultsReport x) =
        reportList defaultsReport) ∧
      (∀ x, ∃ r2, run (withFuelEnergyDensity defaultsReport x) = .ok r2 ∧
        r2.rep = some (reportList defaultsReport)) :=
  report_endurance_lines_same_value defaultsReport rfl (by norm_num [defaultsReport])
    (by norm_num [defaultsReport]) (by norm_num [defaultsReport])
    (by norm_num [defaultsReport]) (by norm_num [defaultsReport])
    (by norm_num [defaultsReport]) (by norm_num [defaultsReport])
    (by norm_num [defaultsReport]) (by norm_num [defaultsReport])
    (by norm_num [defaultsReport]) (by norm_num [defaultsReport])

end

end DroneCalc
